import Mathlib

/-!
Shallow embedding of the crypto-tools DeepBook services (TypeScript sources
under `src/`), together with proofs about the behaviors the specification
describes: order-expiry classification, cleanup batch building, rebate
estimation, the profitability gate, the static pool registry, and the
pool-scanning pipeline (topology resolution, pagination, batched fetch,
decode and filter).

Machine integers of the source (`u64`, `u128` timestamps, MIST amounts)
are modelled as `Nat`; the source reads them from the chain as JavaScript
`BigInt`s, which are arbitrary-precision and never overflow, so no modular
reduction is involved.  Fallible paths (thrown errors caught at the pool
boundary) are modelled with `Except`.
-/

namespace DeepBook

/-- The maximum `u64` value, the on-chain sentinel meaning "never expires". -/
def U64_MAX : Nat := 18446744073709551615

/-! ### Chunking

Both services slice a list into contiguous groups: the `multiGetObjects`
batching loop in `deepbook-janitor/src/deepbook-service.ts` (`for (let i = 0;
i < objectIds.length; i += 50)`) and the transaction-batching loop in
`src/deepbook-service.ts` `buildCleanUpTransaction` (`for (let i = 0;
i < orders.length; i += safeMaxOrders)`).  `chunkList n l` is that loop.
For `n = 0` the JavaScript loop would not terminate; the model returns `[]`
there and every theorem about it assumes `0 < n`. -/
def chunkListGo {α : Type} (n : Nat) : Nat → List α → List (List α)
  | _, [] => []
  | 0, _ :: _ => []
  | fuel + 1, a :: t => ((a :: t).take n) :: chunkListGo n fuel ((a :: t).drop n)

/-- `chunkList n l`: the slicing loop, with `l.length` as fuel (for `0 < n`
the loop advances by `n ≥ 1` elements per iteration, so `l.length` iterations
always suffice and the fuel never runs out). -/
def chunkList {α : Type} (n : Nat) (l : List α) : List (List α) :=
  chunkListGo n l.length l

/-! ### Expiration predicates

Two call sites decide "is this order expired".  The janitor scanner
(`deepbook-janitor/src/deepbook-service.ts`, line 100) tests
`expireTimestamp > 0n && expireTimestamp < now` inline; `isOrderExpired`
(`src/deepbook-service.ts`, lines 547-555) first treats a falsy
`expireTimestamp` (absent or `0`) as "never expires" and otherwise tests
`currentTimestamp > order.expireTimestamp`. -/

/-- The inline expiry test of the janitor scanner:
`expireTimestamp > 0n && expireTimestamp < now`. -/
def isExpiredCheck (expireTimestamp now : Nat) : Bool :=
  decide (expireTimestamp > 0) && decide (expireTimestamp < now)

/-- `isOrderExpired` from `src/deepbook-service.ts`.  `none` models a missing
(`undefined`) `expireTimestamp`; JavaScript truthiness makes `0` and
`undefined` take the same early `return false`. -/
def isOrderExpired (expireTimestamp : Option Nat) (currentTimestamp : Nat) : Bool :=
  match expireTimestamp with
  | none => false
  | some e => if e = 0 then false else decide (currentTimestamp > e)

/-! ### Rebate estimation (`calculateRebate`, `src/deepbook-service.ts`) -/

/-- `STORAGE_COSTS.AVERAGE_REBATE_PER_OBJECT_MIST` from the constants module:
the fixed per-order estimate substituted when an order has no actual
`storageRebate`. -/
def AVERAGE_REBATE_PER_OBJECT_MIST : Nat := 2970000

/-- Result of `calculateRebate` (the `totalRebateSui` display string is a
formatting concern and not modelled). -/
structure RebateCalculation where
  totalOrders : Nat
  totalRebateMist : Nat
  orderRebates : List Nat
  isEstimated : Bool
deriving DecidableEq, Repr

/-- `calculateRebate` from `src/deepbook-service.ts`.  An order is represented
by its optional `storageRebate` field (the only field the function reads).
The source accumulates `totalRebateMist` as a `BigInt` in a loop that also
collects the per-order values. -/
def calculateRebate (orders : List (Option Nat)) : RebateCalculation :=
  if orders.isEmpty then
    { totalOrders := 0, totalRebateMist := 0, orderRebates := [], isEstimated := false }
  else
    let hasActualRebate := orders.all (fun o => o.isSome)
    { totalOrders := orders.length,
      totalRebateMist :=
        orders.foldl (fun acc o => acc + o.getD AVERAGE_REBATE_PER_OBJECT_MIST) 0,
      orderRebates := orders.map (fun o => o.getD AVERAGE_REBATE_PER_OBJECT_MIST),
      isEstimated := !hasActualRebate }

/-! ### Profitability gate (`processPool`, `deepbook-janitor/src/bot.ts`)

The source computes `expiredOrders.length * 0.00297` and skips the pool when
the product is `< 0.005`, using JavaScript doubles.  The model uses exact
rationals: rounding the constants to the nearest double perturbs them by a
relative error below `2 ^ (-52)`, while at every integer count the product
is at least 18% away from the threshold (the decision boundary lies between
counts 1 and 2), so the double comparison and the rational comparison agree
at every possible input. -/

/-- `ESTIMATED_REBATE_PER_ORDER = 0.00297` (SUI). -/
def ESTIMATED_REBATE_PER_ORDER : ℚ := 297 / 100000

/-- `ESTIMATED_GAS_COST = 0.005` (SUI). -/
def ESTIMATED_GAS_COST : ℚ := 5 / 1000

/-- The profitability gate: `processPool` proceeds to build and submit the
cleanup transaction exactly when `potentialRebate < ESTIMATED_GAS_COST` is
false. -/
def isWorthSubmitting (orderCount : Nat) : Bool :=
  !decide ((orderCount : ℚ) * ESTIMATED_REBATE_PER_ORDER < ESTIMATED_GAS_COST)

/-! ### Cleanup batch builders -/

/-- `MAX_COMMANDS_PER_PTB = 1024` from the constants module: the platform
ceiling on commands per programmable transaction block. -/
def MAX_COMMANDS_PER_PTB : Nat := 1024

/-- `buildCleanUpTransaction` from `src/deepbook-service.ts`, abstracted to
the per-transaction batches of orders it slices (each batch is rendered into
one transaction of per-order `cancel_order` calls; the move-call plumbing and
gas budget carry no batching logic).  The source fixes the ceiling to
`MAX_COMMANDS_PER_PTB`; it is a parameter here so the platform ceiling of the
partition property can be quantified, and the shipped value is `1024`. -/
def buildCleanUpTransaction {α : Type} (orders : List α)
    (maxOrdersPerTransaction : Nat) (maxCommandsPerPTB : Nat) : List (List α) :=
  if orders.isEmpty then []
  else chunkList (min maxOrdersPerTransaction maxCommandsPerPTB) orders

/-- `PoolConfig` from `deepbook-janitor/src/constants.ts`. -/
structure PoolConfig where
  name : String
  id : String
  baseType : String
  quoteType : String
deriving DecidableEq, Repr

/-- `MAX_PER_TX = 50` inside the janitor `buildCleanupTransaction`. -/
def MAX_PER_TX : Nat := 50

/-- The single move call the janitor cleanup transaction carries: target
`deepbook::clean_up_expired_orders` with the pool object, the two asset type
tags, and the vector of `u128` order ids. -/
structure CleanupMoveCall where
  poolId : String
  baseType : String
  quoteType : String
  orderIds : List String
deriving DecidableEq, Repr

/-- `buildCleanupTransaction` from `deepbook-janitor/src/deepbook-service.ts`
(vector form), abstracted to the move calls of the one transaction it
returns: it slices `orders.slice(0, MAX_PER_TX)` and issues a single
`moveCall` with that chunk's order ids. -/
def buildCleanupTransactionJanitor (pool : PoolConfig) (orderIds : List String) :
    List CleanupMoveCall :=
  let chunk := orderIds.take MAX_PER_TX
  [{ poolId := pool.id, baseType := pool.baseType, quoteType := pool.quoteType,
     orderIds := chunk }]

/-! ### Static pool registry (`deepbook-janitor/src/constants.ts`) -/

/-- `mainnetCoins`: coin symbol to type tag, in source order. -/
def mainnetCoins : List (String × String) :=
  [ ("DEEP", "0xdeeb7a4662eec9f2f3def03fb937a663dddaa2e215b8078a284d026b7946c270::deep::DEEP"),
    ("SUI", "0x0000000000000000000000000000000000000000000000000000000000000002::sui::SUI"),
    ("USDC", "0xdba34672e30cb065b1f93e3ab55318768fd6fef66c15942c9f7cb846e2f900e7::usdc::USDC"),
    ("WUSDC", "0x5d4b302506645c37ff133b98c4b50a5ae14841659738d6d733d59d0d217a93bf::coin::COIN"),
    ("WETH", "0xaf8cd5edc19c4512f4259f0bee101a40d41ebed738ade5874359610ef8eeced5::coin::COIN"),
    ("BETH", "0xd0e89b2af5e4910726fbcd8b8dd37bb79b29e5f83f7491bca830e94f7f226d29::eth::ETH"),
    ("WBTC", "0x027792d9fed7f9844eb4839566001bb6f6cb4804f66aa2da6fe1ee242d896881::coin::COIN"),
    ("WUSDT", "0xc060006111016b8a020ad5b33834984a437aaa7d3c74c18e09a95d48aceab08c::coin::COIN"),
    ("NS", "0x5145494a5f5100e645e4b0aa950fa6b68f614e8c59e17bc5ded3495123a79178::ns::NS"),
    ("TYPUS", "0xf82dc05634970553615eef6112a1ac4fb7bf10272bf6cbe0f80ef44a6c489385::typus::TYPUS"),
    ("AUSD", "0x2053d08c1e2bd02791056171aab0fd12bd7cd7efad2ab8f6b9c8902f14df2ff2::ausd::AUSD"),
    ("DRF", "0x294de7579d55c110a00a7c4946e09a1b5cbeca2592fbb83fd7bfacba3cfeaf0e::drf::DRF"),
    ("SEND", "0xb45fcfcc2cc07ce0702cc2d229621e046c906ef14d9b25e8e4d25f6e8763fef7::send::SEND"),
    ("WAL", "0x356a26eb9e012a68958082340d4c4116e7f55615cf27affcff209cf0ae544f59::wal::WAL"),
    ("XBTC", "0x876a4b7bce8aeaef60464c11f4026903e9afacab79b9b142686158aa86560b50::xbtc::XBTC"),
    ("IKA", "0x7262fb2f7a3a14c888c438a3cd9b912469a58cf60f367352c46584262e8299aa::ika::IKA"),
    ("ALKIMI", "0x1a8f4bc33f8ef7fbc851f156857aa65d397a6a6fd27a7ac2ca717b51f2fd9489::alkimi::ALKIMI"),
    ("LZWBTC", "0x0041f9f9344cac094454cd574e333c4fdb132d7bcc9379bcd4aab485b2a63942::wbtc::WBTC"),
    ("WGIGA", "0xec32640add6d02a1d5f0425d72705eb76d9de7edfd4f34e0dba68e62ecceb05b::coin::COIN") ]

/-- One entry of `mainnetPools`. -/
structure PoolEntry where
  key : String
  address : String
  baseCoin : String
  quoteCoin : String
deriving DecidableEq, Repr

/-- `mainnetPools`: pool name to descriptor, in source (insertion) order. -/
def mainnetPools : List PoolEntry :=
  [ ⟨"DEEP_SUI", "0xb663828d6217467c8a1838a03793da896cbe745b150ebd57d82f814ca579fc22", "DEEP", "SUI"⟩,
    ⟨"SUI_USDC", "0xe05dafb5133bcffb8d59f4e12465dc0e9faeaa05e3e342a08fe135800e3e4407", "SUI", "USDC"⟩,
    ⟨"DEEP_USDC", "0xf948981b806057580f91622417534f491da5f61aeaf33d0ed8e69fd5691c95ce", "DEEP", "USDC"⟩,
    ⟨"WUSDT_USDC", "0x4e2ca3988246e1d50b9bf209abb9c1cbfec65bd95afdacc620a36c67bdb8452f", "WUSDT", "USDC"⟩,
    ⟨"WUSDC_USDC", "0xa0b9ebefb38c963fd115f52d71fa64501b79d1adcb5270563f92ce0442376545", "WUSDC", "USDC"⟩,
    ⟨"BETH_USDC", "0x1109352b9112717bd2a7c3eb9a416fff1ba6951760f5bdd5424cf5e4e5b3e65c", "BETH", "USDC"⟩,
    ⟨"NS_USDC", "0x0c0fdd4008740d81a8a7d4281322aee71a1b62c449eb5b142656753d89ebc060", "NS", "USDC"⟩,
    ⟨"NS_SUI", "0x27c4fdb3b846aa3ae4a65ef5127a309aa3c1f466671471a806d8912a18b253e8", "NS", "SUI"⟩,
    ⟨"TYPUS_SUI", "0xe8e56f377ab5a261449b92ac42c8ddaacd5671e9fec2179d7933dd1a91200eec", "TYPUS", "SUI"⟩,
    ⟨"SUI_AUSD", "0x183df694ebc852a5f90a959f0f563b82ac9691e42357e9a9fe961d71a1b809c8", "SUI", "AUSD"⟩,
    ⟨"AUSD_USDC", "0x5661fc7f88fbeb8cb881150a810758cf13700bb4e1f31274a244581b37c303c3", "AUSD", "USDC"⟩,
    ⟨"DRF_SUI", "0x126865a0197d6ab44bfd15fd052da6db92fd2eb831ff9663451bbfa1219e2af2", "DRF", "SUI"⟩,
    ⟨"SEND_USDC", "0x1fe7b99c28ded39774f37327b509d58e2be7fff94899c06d22b407496a6fa990", "SEND", "USDC"⟩,
    ⟨"WAL_USDC", "0x56a1c985c1f1123181d6b881714793689321ba24301b3585eec427436eb1c76d", "WAL", "USDC"⟩,
    ⟨"WAL_SUI", "0x81f5339934c83ea19dd6bcc75c52e83509629a5f71d3257428c2ce47cc94d08b", "WAL", "SUI"⟩,
    ⟨"XBTC_USDC", "0x20b9a3ec7a02d4f344aa1ebc5774b7b0ccafa9a5d76230662fdc0300bb215307", "XBTC", "USDC"⟩,
    ⟨"IKA_USDC", "0xfa732993af2b60d04d7049511f801e79426b2b6a5103e22769c0cead982b0f47", "IKA", "USDC"⟩,
    ⟨"ALKIMI_SUI", "0x84752993c6dc6fce70e25ddeb4daddb6592d6b9b0912a0a91c07cfff5a721d89", "ALKIMI", "SUI"⟩,
    ⟨"LZWBTC_USDC", "0xf5142aafa24866107df628bf92d0358c7da6acc46c2f10951690fd2b8570f117", "LZWBTC", "USDC"⟩ ]

/-- `TARGET_POOLS`: each pool entry is rendered to a `PoolConfig` when both
coin symbols resolve in `mainnetCoins`, and is skipped (`return null` +
`.filter(p => p !== null)`) otherwise — `filterMap` is that map-then-filter. -/
def TARGET_POOLS : List PoolConfig :=
  mainnetPools.filterMap (fun e =>
    match mainnetCoins.lookup e.baseCoin, mainnetCoins.lookup e.quoteCoin with
    | some base, some quote =>
        some { name := e.key, id := e.address, baseType := base, quoteType := quote }
    | _, _ => none)

/-! ### Remote object gateway and the janitor pool scan

`scanPoolForExpiredOrders` in `deepbook-janitor/src/deepbook-service.ts`
walks Pool -> Versioned -> V1(Inner) -> Book -> Bids/Asks -> BigVector
slices -> orders.  The remote store is modelled as two total maps: object
contents by id, and the paginated dynamic-field children of each parent
(as the list of pages the server would serve).  `getDynamicFields` called
without a cursor — as the janitor always calls it — returns the first page
only. -/

/-- One dynamic-field child reference as returned by `getDynamicFields`:
the field name's type tag and value, and the child object id. -/
structure DynField where
  nameType : String
  nameValue : String
  objectId : String
deriving DecidableEq, Repr

/-- The fields of one element of a BigVector slice's `values` array, after
the defensive `.fields` unwrapping.  JavaScript truthiness of `item.order_id`
(a decimal string) is emptiness: the scanner decodes an element iff
`order_id` is non-empty. -/
structure OrderItem where
  order_id : String
  owner : String
  price : Nat
  quantity : Nat
  expire_timestamp : Nat
deriving DecidableEq, Repr

/-- The content of a remote object as the janitor scanner interprets it.
`invalid` covers a missing `data.content` or a `dataType` other than
`moveObject` (both sites throw `Invalid ... Object`).  For slice objects,
`sliceNoValue` is a wrapper without a truthy `value`, `sliceNoArray` a slice
whose `values` is not an array (both are silently skipped), and
`slice values` a well-formed slice after the optional `.fields` unwrapping.
The `poolRoot` constructor carries the versioned id already resolved from
`fields.inner?.fields?.id?.id || fields.id?.id` (no claim distinguishes the
two branches of that fallback); `v1` carries `book.fields.bids.fields.id.id`
and `book.fields.asks.fields.id.id`, and `v1NoBook` a V1 object whose
`value.fields.book` is falsy (`throw 'No Order Book found in pool'`). -/
inductive ObjContent where
  | invalid : ObjContent
  | poolRoot (versionedId : String) : ObjContent
  | v1NoBook : ObjContent
  | v1 (bidsId asksId : String) : ObjContent
  | sliceNoValue : ObjContent
  | sliceNoArray : ObjContent
  | slice (values : List OrderItem) : ObjContent
deriving DecidableEq, Repr

/-- The remote object gateway: object contents by id and paginated
dynamic-field children by parent id. -/
structure Gateway where
  objects : String → ObjContent
  pages : String → List (List DynField)

/-- `getDynamicFields({ parentId })` without a cursor: the first page. -/
def getDynamicFieldsFirstPage (gw : Gateway) (parentId : String) : List DynField :=
  (gw.pages parentId).getD 0 []

/-- Line 68 of the janitor service: `fields.data.map(f => f.objectId)` on the
one `getDynamicFields` response. -/
def collectChildIds (gw : Gateway) (parentId : String) : List String :=
  (getDynamicFieldsFirstPage gw parentId).map (fun f => f.objectId)

/-- Order side. -/
inductive Side where
  | bid : Side
  | ask : Side
deriving DecidableEq, Repr

/-- `Order` from `deepbook-janitor/src/types.ts`.  `orderId` is the `u128`
kept as a string, as in the source; the source narrows `expireTimestamp` to
a JavaScript number for logging only. -/
structure Order where
  orderId : String
  owner : String
  side : Side
  price : Nat
  quantity : Nat
  expireTimestamp : Nat
  isExpired : Bool
  objectId : String
deriving DecidableEq, Repr

/-- The `Order` record the scanner pushes for one decoded, expired slice
element (the slice's object id is recorded as `objectId`). -/
def orderFromItem (side : Side) (srcObjectId : String) (item : OrderItem) : Order :=
  { orderId := item.order_id, owner := item.owner, side := side,
    price := item.price, quantity := item.quantity,
    expireTimestamp := item.expire_timestamp, isExpired := true,
    objectId := srcObjectId }

/-- The inner loop body of `scanSide` for one slice element: decode iff
`item.order_id` is truthy, then push iff
`expireTimestamp > 0n && expireTimestamp < now`. -/
def decodeSliceItem (side : Side) (now : Nat) (srcObjectId : String)
    (item : OrderItem) : Option Order :=
  if item.order_id ≠ "" then
    if isExpiredCheck item.expire_timestamp now then
      some (orderFromItem side srcObjectId item)
    else none
  else none

/-- Processing of one object returned by `multiGetObjects`: only a
well-formed slice contributes orders; every other shape is skipped. -/
def scanObject (side : Side) (now : Nat) (objectId : String)
    (content : ObjContent) : List Order :=
  match content with
  | .slice values => values.filterMap (decodeSliceItem side now objectId)
  | _ => []

/-- The `scanSide` closure: collect the child ids of one side's BigVector,
chunk them by 50, fetch each chunk via one `multiGetObjects`, and decode. -/
def scanSide (gw : Gateway) (parentId : String) (side : Side) (now : Nat) :
    List Order :=
  let objectIds := collectChildIds gw parentId
  ((chunkList 50 objectIds).map (fun chunk =>
      chunk.flatMap (fun oid => scanObject side now oid (gw.objects oid)))).flatten

/-- The dynamic-field predicate selecting the version-1 payload:
`f.name.type === 'u64' && f.name.value === '1'`. -/
def isV1Field (f : DynField) : Bool :=
  f.nameType = "u64" && f.nameValue = "1"

/-- The body of `scanPoolForExpiredOrders` up to its `catch`: resolve the
topology and scan both sides; thrown errors are the `Except.error` branch.
A missing version-1 dynamic field is the early `return []`, not an error.
Contents of unexpected shape at the V1 position reach the nested field
accesses and throw; they are mapped to an error uniformly (the model does
not distinguish the message). -/
def scanPoolTry (gw : Gateway) (poolId : String) (now : Nat) :
    Except String (List Order) :=
  match gw.objects poolId with
  | .poolRoot versionedId =>
    match (getDynamicFieldsFirstPage gw versionedId).find? isV1Field with
    | none => .ok []
    | some v1Field =>
      match gw.objects v1Field.objectId with
      | .v1 bidsId asksId =>
          .ok (scanSide gw bidsId .bid now ++ scanSide gw asksId .ask now)
      | .v1NoBook => .error "No Order Book found in pool"
      | _ => .error "Invalid V1 Object"
  | _ => .error "Invalid Pool Object"

/-- `scanPoolForExpiredOrders` with its pool-boundary `catch`: any error is
logged and the pool yields the empty list. -/
def scanPoolForExpiredOrders (gw : Gateway) (poolId : String) (now : Nat) :
    List Order :=
  match scanPoolTry gw poolId now with
  | .ok orders => orders
  | .error _ => []

/-- The bot `main` loop over `TARGET_POOLS`: each pool is processed in turn;
`processPool` never throws past the pool boundary, so every pool produces a
result. -/
def processPools (gw : Gateway) (now : Nat) (poolIds : List String) :
    List (List Order) :=
  poolIds.map (fun pid => scanPoolForExpiredOrders gw pid now)

/-! ### Cursor-draining pagination (`getPoolTicks`, `src/deepbook-service.ts`)

The other service variant drains a collection page by page:
`while (hasNextPage) { result = getDynamicFields(parentId, cursor, 50);
ticks.push(...result.data); hasNextPage = result.hasNextPage;
cursor = result.nextCursor }`.  Cursors are modelled as page indices. -/

/-- One page as served by the gateway at a cursor: its data, the next
cursor, and whether more pages remain. -/
structure DynFieldPage where
  data : List DynField
  nextCursor : Nat
  hasNextPage : Bool
deriving Repr

/-- The gateway's paginated `getDynamicFields` at a cursor. -/
def getDynamicFieldsAt (pages : List (List DynField)) (cursor : Nat) :
    DynFieldPage :=
  { data := pages.getD cursor [],
    nextCursor := cursor + 1,
    hasNextPage := decide (cursor + 1 < pages.length) }

/-- The `while (hasNextPage)` loop of `getPoolTicks`; `fuel` bounds the
iterations for totality and is chosen large enough that the loop always
stops on `hasNextPage = false` first. -/
def getPoolTicksGo (pages : List (List DynField)) (cursor : Nat) :
    Nat → List DynField
  | 0 => []
  | fuel + 1 =>
    let page := getDynamicFieldsAt pages cursor
    page.data ++ (if page.hasNextPage then getPoolTicksGo pages page.nextCursor fuel else [])

/-- `getPoolTicks`: drain the collection from the start. -/
def getPoolTicks (pages : List (List DynField)) : List DynField :=
  getPoolTicksGo pages 0 (pages.length + 1)

/-- The decoded items of one side, in discovery order: every element with a
truthy `order_id` of every well-formed slice object among the side's
children, paired with the slice's object id.  (Derived view of the scan used
to state which orders the scanner reports.) -/
def sliceDecodedItems (oid : String) : ObjContent → List (String × OrderItem)
  | .slice values =>
      (values.filter (fun it => it.order_id != "")).map (fun it => (oid, it))
  | _ => []

/-- All decoded items of one side's children, in discovery order. -/
def decodedItems (gw : Gateway) (parentId : String) : List (String × OrderItem) :=
  (collectChildIds gw parentId).flatMap (fun oid =>
    sliceDecodedItems oid (gw.objects oid))

/-! ### Concrete gateway states for scenario checks -/

/-- A gateway whose pool root resolves but whose versioned wrapper has no
children at all (so no child keyed by the `u64` marker `1`). -/
def c6Gateway : Gateway :=
  { objects := fun oid =>
      if oid = "P" then ObjContent.poolRoot "V" else ObjContent.invalid,
    pages := fun _ => [[]] }

/-- A distinct dynamic-field child reference for pagination scenarios. -/
def c7Field (i : Nat) : DynField :=
  ⟨"u64", toString i, "cid" ++ toString i⟩

/-- A collection served as three pages of sizes 10, 10 and 5, all 25 child
references distinct. -/
def c7Pages : List (List DynField) :=
  [ (List.range 10).map c7Field,
    (List.range 10).map (fun i => c7Field (10 + i)),
    (List.range 5).map (fun i => c7Field (20 + i)) ]

/-- A gateway serving the three-page collection for every parent. -/
def c7Gateway : Gateway :=
  { objects := fun _ => ObjContent.invalid,
    pages := fun _ => c7Pages }

/-- A decodable order item that is expired at reference time 1000. -/
def c8ExpiredItem (i : Nat) : OrderItem :=
  ⟨"exp" ++ toString i, "0xowner", 10, 5, 500⟩

/-- A decodable order item carrying the `u64::MAX` sentinel (never expires). -/
def c8SentinelItem : OrderItem :=
  ⟨"gtc", "0xowner", 10, 5, U64_MAX⟩

/-- 120 decodable items: 3 expired ones interleaved among 117 sentinel
ones. -/
def c8Items : List OrderItem :=
  [c8ExpiredItem 1] ++ List.replicate 58 c8SentinelItem
    ++ [c8ExpiredItem 2] ++ List.replicate 59 c8SentinelItem
    ++ [c8ExpiredItem 3]

/-- A well-formed pool whose bid side holds one slice with `c8Items` and
whose ask side is empty. -/
def c8Gateway : Gateway :=
  { objects := fun oid =>
      if oid = "P" then ObjContent.poolRoot "V"
      else if oid = "V1" then ObjContent.v1 "BIDS" "ASKS"
      else if oid = "S1" then ObjContent.slice c8Items
      else ObjContent.invalid,
    pages := fun pid =>
      if pid = "V" then [[⟨"u64", "1", "V1"⟩]]
      else if pid = "BIDS" then [[⟨"u128", "0", "S1"⟩]]
      else [[]] }

/-- The order record the scanner reports for the i-th expired item of the
`c8Gateway` scenario. -/
def c8ExpectedOrder (i : Nat) : Order :=
  ⟨"exp" ++ toString i, "0xowner", Side.bid, 10, 5, 500, true, "S1"⟩

/-! ## Lemmas about the chunking loop -/

theorem chunkListGo_nil {α : Type} (n fuel : Nat) :
    chunkListGo (α := α) n fuel [] = [] := by
  cases fuel <;> rfl

theorem chunkListGo_flatten {α : Type} (n : Nat) (hn : n ≠ 0) (fuel : Nat) :
    ∀ l : List α, l.length ≤ fuel → (chunkListGo n fuel l).flatten = l := by
  induction fuel with
  | zero =>
    intro l hl
    rw [List.length_eq_zero.mp (Nat.le_zero.mp hl), chunkListGo_nil]
    rfl
  | succ fuel ih =>
    intro l hl
    match l with
    | [] => rfl
    | a :: t =>
      rw [chunkListGo, List.flatten_cons, ih _ ?_, List.take_append_drop]
      have hlen : ((a :: t).drop n).length = t.length + 1 - n := by
        simp [List.length_drop]
      simp only [List.length_cons] at hl
      omega

theorem chunkList_flatten {α : Type} (n : Nat) (l : List α) (hn : n ≠ 0) :
    (chunkList n l).flatten = l :=
  chunkListGo_flatten n hn l.length l (Nat.le_refl _)

theorem chunkListGo_mem_length_le {α : Type} (n fuel : Nat) :
    ∀ (l c : List α), c ∈ chunkListGo n fuel l → c.length ≤ n := by
  induction fuel with
  | zero =>
    intro l c hc
    match l with
    | [] => rw [chunkListGo_nil] at hc; simp at hc
    | _ :: _ => cases n <;> simp [chunkListGo] at hc
  | succ fuel ih =>
    intro l c hc
    match l with
    | [] => rw [chunkListGo_nil] at hc; simp at hc
    | a :: t =>
      rw [chunkListGo] at hc
      rcases List.mem_cons.mp hc with rfl | hmem
      · simpa using Nat.min_le_left n (a :: t).length
      · exact ih _ c hmem

theorem chunkList_mem_length_le {α : Type} (n : Nat) (l c : List α)
    (hc : c ∈ chunkList n l) : c.length ≤ n :=
  chunkListGo_mem_length_le n l.length l c hc

theorem chunkListGo_eq_nil_imp {α : Type} (n fuel : Nat) (l : List α)
    (h : chunkListGo n fuel l = []) (hfuel : l.length ≤ fuel) : l = [] := by
  match fuel, l with
  | _, [] => rfl
  | 0, _ :: _ => simp at hfuel
  | fuel + 1, a :: t => rw [chunkListGo] at h; simp at h

/-- Every chunk except possibly the last has length exactly `n`. -/
theorem chunkListGo_getD_length {α : Type} (n : Nat) (hn : n ≠ 0) (fuel : Nat) :
    ∀ (l : List α) (i : Nat), l.length ≤ fuel →
      i + 1 < (chunkListGo n fuel l).length →
      ((chunkListGo n fuel l).getD i []).length = n := by
  induction fuel with
  | zero =>
    intro l i hl hi
    rw [List.length_eq_zero.mp (Nat.le_zero.mp hl), chunkListGo_nil] at hi
    simp at hi
  | succ fuel ih =>
    intro l i hl hi
    match l with
    | [] => rw [chunkListGo_nil] at hi; simp at hi
    | a :: t =>
      rw [chunkListGo] at hi ⊢
      have hfuel : ((a :: t).drop n).length ≤ fuel := by
        have hlen : ((a :: t).drop n).length = t.length + 1 - n := by
          simp [List.length_drop]
        simp only [List.length_cons] at hl
        omega
      match i with
      | 0 =>
        simp only [List.getD_cons_zero, List.length_take]
        have hne : chunkListGo n fuel ((a :: t).drop n) ≠ [] := by
          intro hnil
          rw [hnil] at hi
          simp at hi
        have hdrop : (a :: t).drop n ≠ [] :=
          fun hd => hne (by rw [hd, chunkListGo_nil])
        have hlt : n < (a :: t).length := by
          by_contra hge
          push_neg at hge
          exact hdrop (List.drop_eq_nil_of_le hge)
        exact Nat.min_eq_left (Nat.le_of_lt hlt)
      | i + 1 =>
        simp only [List.getD_cons_succ]
        apply ih _ i hfuel
        simpa using hi

theorem chunkList_getD_length {α : Type} (n : Nat) (l : List α) (i : Nat)
    (hn : n ≠ 0) (hi : i + 1 < (chunkList n l).length) :
    ((chunkList n l).getD i []).length = n :=
  chunkListGo_getD_length n hn l.length l i (Nat.le_refl _) hi

/-- Mapping a per-chunk `flatMap` over the chunks and flattening visits every
element of the original list exactly once, in order (the batched
`multiGetObjects` loop processes the chunked ids like the unchunked list). -/
theorem chunkListGo_flatMap {α β : Type} (n : Nat) (hn : n ≠ 0)
    (f : α → List β) (fuel : Nat) :
    ∀ l : List α, l.length ≤ fuel →
      ((chunkListGo n fuel l).map (fun c => c.flatMap f)).flatten = l.flatMap f := by
  induction fuel with
  | zero =>
    intro l hl
    rw [List.length_eq_zero.mp (Nat.le_zero.mp hl), chunkListGo_nil]
    rfl
  | succ fuel ih =>
    intro l hl
    match l with
    | [] => rfl
    | a :: t =>
      rw [chunkListGo, List.map_cons, List.flatten_cons, ih _ ?_,
        ← List.flatMap_append, List.take_append_drop]
      have hlen : ((a :: t).drop n).length = t.length + 1 - n := by
        simp [List.length_drop]
      simp only [List.length_cons] at hl
      omega

theorem chunkList_flatMap {α β : Type} (n : Nat) (l : List α)
    (f : α → List β) (hn : n ≠ 0) :
    ((chunkList n l).map (fun c => c.flatMap f)).flatten = l.flatMap f :=
  chunkListGo_flatMap n hn f l.length l (Nat.le_refl _)

/-! ## Claim theorems -/

/-- C1: for every decoded order and every reference time, the scanner
classifies the order as expired iff `0 < expireTimestamp < referenceTime`;
both expiry checks agree; an `expireTimestamp` of `u64` max (the sentinel)
is never classified expired for any realizable reference time (any reference
time representable in `u64`; `Date.now()` is 13 orders of magnitude below
it), and an `expireTimestamp` of exactly `0` is never classified expired. -/
theorem spec_C1_expiry_classification (e now : Nat) (hnow : now ≤ U64_MAX) :
    (isExpiredCheck e now = true ↔ 0 < e ∧ e < now)
  ∧ (isOrderExpired (some e) now = isExpiredCheck e now)
  ∧ (isOrderExpired (some e) now = true ↔ 0 < e ∧ e < now)
  ∧ isExpiredCheck U64_MAX now = false
  ∧ isOrderExpired (some U64_MAX) now = false
  ∧ isExpiredCheck 0 now = false
  ∧ isOrderExpired (some 0) now = false := by
  have hiff : isExpiredCheck e now = true ↔ 0 < e ∧ e < now := by
    simp [isExpiredCheck]
  have hagree : ∀ x : Nat, isOrderExpired (some x) now = isExpiredCheck x now := by
    intro x
    by_cases hx : x = 0
    · simp [isOrderExpired, isExpiredCheck, hx]
    · simp [isOrderExpired, isExpiredCheck, hx, Nat.pos_of_ne_zero hx]
  have hmaxnot : ¬ U64_MAX < now := Nat.not_lt.mpr hnow
  refine ⟨hiff, hagree e, ?_, ?_, ?_, ?_, ?_⟩
  · rw [hagree e]; exact hiff
  · simp [isExpiredCheck, hmaxnot]
  · rw [hagree U64_MAX]; simp [isExpiredCheck, hmaxnot]
  · simp [isExpiredCheck]
  · simp [isOrderExpired]

/-- Witness for C1 at `expireTimestamp = 5`, `referenceTime = 100`. -/
theorem spec_C1_expiry_classification_witness : isExpiredCheck 5 100 = true :=
  (spec_C1_expiry_classification 5 100 (by decide)).1.mpr (by decide)

/-- Helper: the rebate accumulation loop computes the sum of the per-order
values. -/
theorem foldl_rebate_sum (orders : List (Option Nat)) (acc : Nat) :
    orders.foldl (fun acc o => acc + o.getD AVERAGE_REBATE_PER_OBJECT_MIST) acc
      = acc + (orders.map (fun o => o.getD AVERAGE_REBATE_PER_OBJECT_MIST)).sum := by
  induction orders generalizing acc with
  | nil => simp
  | cons a t ih => simp [ih, Nat.add_assoc]

/-- C3: the rebate estimator's total is the exact integer sum of the
per-order values (actual `storageRebate` when present, else the fixed
2,970,000 MIST estimate); `isEstimated` is true iff at least one order lacks
an actual value; the empty list gives total 0, totalOrders 0, isEstimated
false; and two orders with actual value 3,000,000 plus one without give
total 8,970,000 with isEstimated true. -/
theorem spec_C3_rebate_aggregation (orders : List (Option Nat)) :
    ((calculateRebate orders).totalRebateMist
        = (orders.map (fun o => o.getD AVERAGE_REBATE_PER_OBJECT_MIST)).sum)
  ∧ ((calculateRebate orders).isEstimated = true ↔ none ∈ orders)
  ∧ ((calculateRebate orders).totalOrders = orders.length)
  ∧ ((calculateRebate orders).orderRebates
        = orders.map (fun o => o.getD AVERAGE_REBATE_PER_OBJECT_MIST))
  ∧ calculateRebate [] = ⟨0, 0, [], false⟩
  ∧ calculateRebate [some 3000000, some 3000000, none]
      = ⟨3, 8970000, [3000000, 3000000, 2970000], true⟩ := by
  by_cases he : orders.isEmpty
  · have : orders = [] := List.isEmpty_iff.mp he
    subst this
    refine ⟨rfl, by simp [calculateRebate], rfl, rfl, rfl, by decide⟩
  · have hne : ¬ orders.isEmpty = true := he
    refine ⟨?_, ?_, ?_, ?_, rfl, by decide⟩
    · rw [calculateRebate, if_neg hne]
      exact (foldl_rebate_sum orders 0).trans (Nat.zero_add _)
    · rw [calculateRebate, if_neg hne]
      show (!orders.all fun o => o.isSome) = true ↔ none ∈ orders
      simp only [Bool.not_eq_true', List.all_eq_false, Bool.not_eq_true,
        Option.not_isSome, Option.isNone_iff_eq_none]
      constructor
      · rintro ⟨x, hx, rfl⟩
        exact hx
      · intro hn
        exact ⟨none, hn, rfl⟩
    · rw [calculateRebate, if_neg hne]
    · rw [calculateRebate, if_neg hne]

/-- C4: the profitability gate permits submission iff
`orderCount * 0.00297 ≥ 0.005`, which for whole order counts is exactly
`orderCount ≥ 2`. -/
theorem spec_C4_profitability_gate (n : Nat) :
    (isWorthSubmitting n = true ↔
        ESTIMATED_GAS_COST ≤ (n : ℚ) * ESTIMATED_REBATE_PER_ORDER)
  ∧ (isWorthSubmitting n = true ↔ 2 ≤ n) := by
  have h1 : isWorthSubmitting n = true ↔
      ESTIMATED_GAS_COST ≤ (n : ℚ) * ESTIMATED_REBATE_PER_ORDER := by
    simp [isWorthSubmitting, not_lt]
  refine ⟨h1, h1.trans ?_⟩
  unfold ESTIMATED_GAS_COST ESTIMATED_REBATE_PER_ORDER
  constructor
  · intro h
    by_contra hn
    push_neg at hn
    interval_cases n <;> norm_num at h
  · intro h
    have h2 : (2 : ℚ) ≤ (n : ℚ) := by exact_mod_cast h
    nlinarith

/-- Counterexample to C5: at `orderCount = 2` the gate returns `true`
(worth submitting), not `false`: `2 * 0.00297 = 0.00594 ≥ 0.005`. -/
theorem spec_C5_counterexample : isWorthSubmitting 2 = true := by
  norm_num [isWorthSubmitting, ESTIMATED_REBATE_PER_ORDER, ESTIMATED_GAS_COST]

/-- C5 (amended): at `orderCount = 2` the gate returns `true` since
`2 * 0.00297 = 0.00594 ≥ 0.005`; it returns `false` exactly for
`orderCount ≤ 1`. -/
theorem spec_C5_gate_at_small_counts :
    isWorthSubmitting 2 = true
  ∧ isWorthSubmitting 1 = false
  ∧ isWorthSubmitting 0 = false := by
  refine ⟨?_, ?_, ?_⟩ <;>
    norm_num [isWorthSubmitting, ESTIMATED_REBATE_PER_ORDER, ESTIMATED_GAS_COST]

set_option maxRecDepth 8192 in
/-- C2: the cleanup batch builder partitions the order-id list into
contiguous batches in original order — flattening the batches reproduces the
input exactly, every batch is at most `min(requestedMax, platformCeiling)`
long, every batch but the last is exactly that long — and 130 identifiers
with `requestedMax = 50` under the shipped ceiling `1024` yield batch sizes
`[50, 50, 30]`.  (For `requestedMax = 0` the source's slicing loop would not
terminate, hence the positivity hypotheses.) -/
theorem spec_C2_batch_partition (orders : List String)
    (requestedMax platformCeiling : Nat)
    (hrm : 0 < requestedMax) (hpc : 0 < platformCeiling) :
    ((buildCleanUpTransaction orders requestedMax platformCeiling).flatten = orders)
  ∧ (∀ b ∈ buildCleanUpTransaction orders requestedMax platformCeiling,
        b.length ≤ min requestedMax platformCeiling)
  ∧ (∀ i, i + 1 < (buildCleanUpTransaction orders requestedMax platformCeiling).length →
        ((buildCleanUpTransaction orders requestedMax platformCeiling).getD i []).length
          = min requestedMax platformCeiling)
  ∧ ((buildCleanUpTransaction (List.range 130) 50 MAX_COMMANDS_PER_PTB).map
        List.length = [50, 50, 30]) := by
  have hmin : min requestedMax platformCeiling ≠ 0 :=
    Nat.pos_iff_ne_zero.mp (Nat.lt_min.mpr ⟨hrm, hpc⟩)
  by_cases he : orders.isEmpty
  · have : orders = [] := List.isEmpty_iff.mp he
    subst this
    exact ⟨rfl, by simp [buildCleanUpTransaction], by simp [buildCleanUpTransaction],
      by decide⟩
  · have hne : ¬ orders.isEmpty = true := he
    refine ⟨?_, ?_, ?_, by decide⟩
    · rw [buildCleanUpTransaction, if_neg hne]
      exact chunkList_flatten _ orders hmin
    · rw [buildCleanUpTransaction, if_neg hne]
      intro b hb
      exact chunkList_mem_length_le _ orders b hb
    · rw [buildCleanUpTransaction, if_neg hne]
      intro i hi
      exact chunkList_getD_length _ orders i hmin hi

/-- Witness for C2 at the 130-identifier scenario. -/
theorem spec_C2_batch_partition_witness :
    (buildCleanUpTransaction ((List.range 130).map toString) 50 1024).flatten
      = (List.range 130).map toString :=
  (spec_C2_batch_partition ((List.range 130).map toString) 50 1024
    (by decide) (by decide)).1

/-- C9: the janitor's vector-form cleanup builder returns exactly one
transaction with a single move call carrying only the first
`min(length, 50)` order identifiers of the input; identifiers beyond the
first 50 (under no duplication) appear in no transaction. -/
theorem spec_C9_janitor_single_transaction (pool : PoolConfig)
    (orderIds : List String) (hne : orderIds ≠ []) :
    (buildCleanupTransactionJanitor pool orderIds).length = 1
  ∧ ∀ c ∈ buildCleanupTransactionJanitor pool orderIds,
      c.orderIds = orderIds.take 50
    ∧ c.orderIds.length = min orderIds.length 50
    ∧ (orderIds.Nodup → ∀ oid ∈ orderIds.drop 50, oid ∉ c.orderIds) := by
  refine ⟨rfl, ?_⟩
  intro c hc
  have hc' : c = ⟨pool.id, pool.baseType, pool.quoteType, orderIds.take MAX_PER_TX⟩ := by
    simpa [buildCleanupTransactionJanitor] using hc
  subst hc'
  refine ⟨rfl, ?_, ?_⟩
  · simpa [MAX_PER_TX, Nat.min_comm] using List.length_take 50 orderIds
  · intro hnd oid hoid hmem
    exact (List.disjoint_take_drop hnd (Nat.le_refl 50)) hmem hoid

/-- Witness for C9 at a three-identifier input. -/
theorem spec_C9_janitor_single_transaction_witness :
    (buildCleanupTransactionJanitor
        ⟨"DEEP_SUI", "0xpool", "0xbase", "0xquote"⟩ ["1", "2", "3"]).length = 1 :=
  (spec_C9_janitor_single_transaction ⟨"DEEP_SUI", "0xpool", "0xbase", "0xquote"⟩
    ["1", "2", "3"] (by decide)).1

/-- C10: every entry of `TARGET_POOLS` has all four `PoolConfig` fields
present and non-empty, each type tag resolved from the coin table; with the
shipped tables no pool entry is dropped by the missing-coin filter and the
registry holds exactly 19 pools. -/
theorem spec_C10_registry_complete :
    TARGET_POOLS.length = 19
  ∧ TARGET_POOLS.length = mainnetPools.length
  ∧ (∀ p ∈ TARGET_POOLS,
        p.name ≠ "" ∧ p.id ≠ "" ∧ p.baseType ≠ "" ∧ p.quoteType ≠ ""
      ∧ p.baseType ∈ mainnetCoins.map Prod.snd
      ∧ p.quoteType ∈ mainnetCoins.map Prod.snd)
  ∧ (∀ e ∈ mainnetPools,
        (mainnetCoins.lookup e.baseCoin).isSome
      ∧ (mainnetCoins.lookup e.quoteCoin).isSome) := by
  refine ⟨by decide, by decide, by decide, by decide⟩

/-- Helper: from any in-range cursor, with enough fuel, the drain loop
returns exactly the remaining pages' data, stopping on `hasNextPage =
false`. -/
theorem getPoolTicksGo_drain (pages : List (List DynField)) :
    ∀ (fuel cursor : Nat), cursor < pages.length →
      pages.length - cursor ≤ fuel →
      getPoolTicksGo pages cursor fuel = (pages.drop cursor).flatten := by
  intro fuel
  induction fuel with
  | zero =>
    intro cursor hc hf
    omega
  | succ fuel ih =>
    intro cursor hc hf
    have hdata : pages.getD cursor [] = pages[cursor] := by
      rw [List.getD_eq_getElem?_getD, List.getElem?_eq_getElem hc]
      rfl
    have hdrop : pages.drop cursor = pages[cursor] :: pages.drop (cursor + 1) :=
      List.drop_eq_getElem_cons hc
    rw [getPoolTicksGo]
    simp only [getDynamicFieldsAt, hdata]
    by_cases hmore : cursor + 1 < pages.length
    · rw [if_pos (by simpa using hmore), ih (cursor + 1) hmore (by omega), hdrop,
        List.flatten_cons]
    · rw [if_neg (by simpa using hmore), hdrop, List.flatten_cons,
        List.drop_eq_nil_of_le (by omega), List.flatten_nil]

/-- Helper: `getPoolTicks` drains the whole collection. -/
theorem getPoolTicks_drain (pages : List (List DynField)) :
    getPoolTicks pages = pages.flatten := by
  match pages with
  | [] => rfl
  | p :: ps =>
    exact getPoolTicksGo_drain (p :: ps) ((p :: ps).length + 1) 0 (by simp) (by omega)

/-- Helper: the decode-and-test loop over one slice's values equals a filter
by "decodable and expired" followed by the record construction. -/
theorem filterMap_decode (side : Side) (now : Nat) (oid : String)
    (values : List OrderItem) :
    values.filterMap (decodeSliceItem side now oid)
      = (values.filter (fun it =>
            it.order_id != "" && isExpiredCheck it.expire_timestamp now)).map
          (orderFromItem side oid) := by
  induction values with
  | nil => rfl
  | cons a t ih =>
    rw [List.filterMap_cons, List.filter_cons]
    by_cases h1 : a.order_id = ""
    · simp [decodeSliceItem, h1, ih]
    · by_cases h2 : isExpiredCheck a.expire_timestamp now
      · simp [decodeSliceItem, h1, h2, ih]
      · simp [decodeSliceItem, h1, h2, ih]

/-- Helper: one fetched object's contribution equals filtering its decoded
items by the expiry predicate and building the order records. -/
theorem scanObject_filter_map (side : Side) (now : Nat) (oid : String)
    (content : ObjContent) :
    scanObject side now oid content
      = ((sliceDecodedItems oid content).filter
            (fun p => isExpiredCheck p.2.expire_timestamp now)).map
          (fun p => orderFromItem side p.1 p.2) := by
  match content with
  | ObjContent.slice values =>
    show values.filterMap (decodeSliceItem side now oid) = _
    rw [sliceDecodedItems, filterMap_decode, List.filter_map, List.map_map,
      List.filter_filter]
    have hpred : ∀ it ∈ values,
        (it.order_id != "" && isExpiredCheck it.expire_timestamp now)
          = (((fun p => isExpiredCheck p.2.expire_timestamp now)
                ∘ fun it => (oid, it)) it && it.order_id != "") := by
      intro it _
      simp [Function.comp, Bool.and_comm]
    rw [List.filter_congr hpred]
    rfl
  | ObjContent.invalid => rfl
  | ObjContent.poolRoot v => rfl
  | ObjContent.v1NoBook => rfl
  | ObjContent.v1 b a => rfl
  | ObjContent.sliceNoValue => rfl
  | ObjContent.sliceNoArray => rfl

/-- Helper: `scanSide` reports exactly the decoded items that pass the
expiry test, in discovery order. -/
theorem scanSide_eq_filter (gw : Gateway) (parentId : String) (side : Side)
    (now : Nat) :
    scanSide gw parentId side now
      = ((decodedItems gw parentId).filter
            (fun p => isExpiredCheck p.2.expire_timestamp now)).map
          (fun p => orderFromItem side p.1 p.2) := by
  show ((chunkList 50 (collectChildIds gw parentId)).map (fun chunk =>
      chunk.flatMap (fun oid => scanObject side now oid (gw.objects oid)))).flatten = _
  rw [chunkList_flatMap 50 _ _ (by decide), decodedItems]
  induction collectChildIds gw parentId with
  | nil => rfl
  | cons a t ih =>
    rw [List.flatMap_cons, List.flatMap_cons, List.filter_append, List.map_append,
      ih, scanObject_filter_map side now a (gw.objects a)]

/-- C6: topology failures never propagate out of a scan — a versioned
wrapper with no child keyed by the `u64` marker `1` yields `ok []` (a
normal, non-error result); any error raised inside the scan (malformed root,
malformed V1 content, missing order book) is caught at the pool boundary
and that pool yields `[]`; and the run maps every pool to a result
regardless of any individual pool's failure. -/
theorem spec_C6_topology_failures (gw : Gateway) (poolId vid : String)
    (now : Nat) (pools : List String)
    (hroot : gw.objects poolId = ObjContent.poolRoot vid) :
    ((getDynamicFieldsFirstPage gw vid).find? isV1Field = none →
        scanPoolTry gw poolId now = Except.ok [])
  ∧ (∀ e, scanPoolTry gw poolId now = Except.error e →
        scanPoolForExpiredOrders gw poolId now = [])
  ∧ (∀ pid, gw.objects pid = ObjContent.invalid →
        scanPoolForExpiredOrders gw pid now = [])
  ∧ (∀ f, (getDynamicFieldsFirstPage gw vid).find? isV1Field = some f →
        gw.objects f.objectId = ObjContent.v1NoBook →
        scanPoolForExpiredOrders gw poolId now = [])
  ∧ (processPools gw now pools).length = pools.length
  ∧ (∀ i, i < pools.length →
        (processPools gw now pools).getD i []
          = scanPoolForExpiredOrders gw (pools.getD i "") now) := by
  refine ⟨?_, ?_, ?_, ?_, by simp [processPools], ?_⟩
  · intro hf
    simp only [scanPoolTry, hroot, hf]
  · intro e he
    rw [scanPoolForExpiredOrders, he]
  · intro pid hpid
    simp only [scanPoolForExpiredOrders, scanPoolTry, hpid]
  · intro f hf hnb
    simp only [scanPoolForExpiredOrders, scanPoolTry, hroot, hf, hnb]
  · intro i hi
    have h1 : pools[i]? = some pools[i] := List.getElem?_eq_getElem hi
    simp [processPools, List.getD_eq_getElem?_getD, List.getElem?_map, h1]

/-- Witness for C6: a pool whose versioned wrapper has no children scans to
`ok []`. -/
theorem spec_C6_topology_failures_witness :
    scanPoolTry c6Gateway "P" 1000 = Except.ok [] :=
  (spec_C6_topology_failures c6Gateway "P" "V" 1000 [] (by decide)).1 (by decide)

set_option maxRecDepth 8192 in
/-- Counterexample to C7: on a collection served as pages of sizes
[10, 10, 5] (25 distinct references in total), the janitor scanner's
single-call collection step gathers only the 10 references of the first
page — it does not drain the collection to `hasMore = false`. -/
theorem spec_C7_counterexample :
    (c7Pages.map List.length = [10, 10, 5])
  ∧ c7Pages.flatten.length = 25
  ∧ (collectChildIds c7Gateway "BIDS").length = 10
  ∧ collectChildIds c7Gateway "BIDS" ≠ c7Pages.flatten.map DynField.objectId := by
  refine ⟨by decide, by decide, by decide, by decide⟩

set_option maxRecDepth 8192 in
/-- C7 (amended): the cursor-paginating drain (`getPoolTicks`) collects all
child references across every page with no repeats, terminating exactly when
`hasMore = false` (pages of sizes [10, 10, 5] yield exactly 25 distinct
references); the janitor side scanner collects the child identifiers of a
single page (the first) and partitions the identifiers it collected into
fixed-size groups of 50, only the last smaller, issuing one batched
multi-object lookup per group sequentially. -/
theorem spec_C7_pagination_and_grouping (pages : List (List DynField))
    (gw : Gateway) (parentId : String) (side : Side) (now : Nat) :
    getPoolTicks pages = pages.flatten
  ∧ (getPoolTicks c7Pages).length = 25
  ∧ (getPoolTicks c7Pages).Nodup
  ∧ collectChildIds gw parentId
      = ((gw.pages parentId).getD 0 []).map (fun f => f.objectId)
  ∧ scanSide gw parentId side now
      = ((chunkList 50 (collectChildIds gw parentId)).map (fun chunk =>
            chunk.flatMap (fun oid => scanObject side now oid (gw.objects oid)))).flatten
  ∧ (chunkList 50 (collectChildIds gw parentId)).flatten = collectChildIds gw parentId
  ∧ (∀ c ∈ chunkList 50 (collectChildIds gw parentId), c.length ≤ 50)
  ∧ (∀ i, i + 1 < (chunkList 50 (collectChildIds gw parentId)).length →
        ((chunkList 50 (collectChildIds gw parentId)).getD i []).length = 50) := by
  refine ⟨getPoolTicks_drain pages, by decide, by decide, rfl, rfl,
    chunkList_flatten 50 _ (by decide),
    fun c hc => chunkList_mem_length_le 50 _ c hc,
    fun i hi => chunkList_getD_length 50 _ i (by decide) hi⟩

set_option maxRecDepth 8192 in
/-- C8: a pool scan returns exactly the decoded orders classified as
expired — each side's output is the expiry-filter of its decoded items in
discovery order, the pool's output is the bid side's results followed by the
ask side's — and in the scenario of 120 decoded items of which 3 are expired
and 117 carry the sentinel, exactly those 3 are returned. -/
theorem spec_C8_scan_results (gw : Gateway) (poolId vid bidsId asksId : String)
    (now : Nat) (f : DynField)
    (hroot : gw.objects poolId = ObjContent.poolRoot vid)
    (hfind : (getDynamicFieldsFirstPage gw vid).find? isV1Field = some f)
    (hv1 : gw.objects f.objectId = ObjContent.v1 bidsId asksId) :
    scanPoolForExpiredOrders gw poolId now
      = scanSide gw bidsId Side.bid now ++ scanSide gw asksId Side.ask now
  ∧ (∀ pid side, scanSide gw pid side now
      = ((decodedItems gw pid).filter
            (fun p => isExpiredCheck p.2.expire_timestamp now)).map
          (fun p => orderFromItem side p.1 p.2))
  ∧ (decodedItems c8Gateway "BIDS").length = 120
  ∧ ((decodedItems c8Gateway "BIDS").filter
        (fun p => isExpiredCheck p.2.expire_timestamp 1000)).length = 3
  ∧ scanPoolForExpiredOrders c8Gateway "P" 1000
      = [c8ExpectedOrder 1, c8ExpectedOrder 2, c8ExpectedOrder 3] := by
  refine ⟨?_, fun pid side => scanSide_eq_filter gw pid side now,
    by decide, by decide, by decide⟩
  simp only [scanPoolForExpiredOrders, scanPoolTry, hroot, hfind, hv1]

/-- Witness for C8 at the concrete 120-item scenario gateway. -/
theorem spec_C8_scan_results_witness :
    scanPoolForExpiredOrders c8Gateway "P" 1000
      = scanSide c8Gateway "BIDS" Side.bid 1000
          ++ scanSide c8Gateway "ASKS" Side.ask 1000 :=
  (spec_C8_scan_results c8Gateway "P" "V" "BIDS" "ASKS" 1000 ⟨"u64", "1", "V1"⟩
    (by decide) (by decide) (by decide)).1

end DeepBook
